import Mathlib

/-!
Shallow embedding of the quiz session core of the AI-SDL repository
(`src/components/Quiz.tsx` and the state/type declarations in
`src/unnamed/part_001`), together with theorems about the answer
matcher, the session state machine, and the final scoring report.

The embedding models JavaScript strings as Lean `String`, absent values
(`null`/`undefined`) as `Option`, and the floating-point score as an
exact rational (the score is the pure arithmetic expression
`correctCount / questions.length * 100`).
-/

/-- `QuestionType` from `src/unnamed/part_001`:
`'multiple-choice' | 'short-answer' | 'ox'`. -/
inductive QuestionType where
  | multipleChoice
  | shortAnswer
  | ox
deriving DecidableEq, Repr

/-- `QuizQuestion` from `src/unnamed/part_001` (fields irrelevant to the
core decisions — translations, image, passage — are kept only where a
claim mentions them). -/
structure QuizQuestion where
  question : String
  questionType : QuestionType
  options : Option (List String) := none
  answer : String
  explanation : String := ""
deriving DecidableEq, Repr

/-- The ECMAScript whitespace set recognized by `String.prototype.trim`:
WhiteSpace (TAB, VT, FF, SP, NBSP, ZWNBSP, Unicode Zs) plus
LineTerminator (LF, CR, LS, PS). -/
def isJsWhitespace (c : Char) : Bool :=
  c = ' ' || c = '\t' || c = '\n' || c = '\r' ||
  c = '\u000B' || c = '\u000C' || c.toNat = 0x00A0 || c.toNat = 0xFEFF ||
  c.toNat = 0x1680 || (0x2000 ≤ c.toNat && c.toNat ≤ 0x200A) ||
  c.toNat = 0x2028 || c.toNat = 0x2029 || c.toNat = 0x202F ||
  c.toNat = 0x205F || c.toNat = 0x3000

/-- JavaScript `s.trim()`: drop leading and trailing whitespace. -/
def jsTrim (s : String) : String :=
  String.mk (((s.data.dropWhile isJsWhitespace).reverse.dropWhile isJsWhitespace).reverse)

/-- JavaScript `s.replace(/[.,]$/, '')`: strip one trailing `.` or `,`
character if present (the regex is unanchored at the start and matches at
most once, at the end of the string). -/
def stripTrailingPunct (s : String) : String :=
  match s.data.getLast? with
  | some c => if c = '.' || c = ',' then String.mk s.data.dropLast else s
  | none => s

/-- The normalization applied to both sides inside `isAnswerMatch`
(`Quiz.tsx` lines 55-56): trim, then strip one trailing `.` or `,`. -/
def normalizeAnswer (s : String) : String :=
  stripTrailingPunct (jsTrim s)

/-- `isAnswerMatch` from `Quiz.tsx` lines 50-59.  The JavaScript guard
`if (!option) return false` is falsy-based, so it rejects both `null`
and the empty string. -/
def isAnswerMatch (option : Option String) (answer : String) : Bool :=
  match option with
  | none => false
  | some o =>
    if o = "" then false
    else if o = answer then true
    else decide (normalizeAnswer o = normalizeAnswer answer)

example : isAnswerMatch (some "Paris.") "Paris" = true := by decide
example : isAnswerMatch (some " Paris ") "Paris" = true := by decide
example : isAnswerMatch (some "paris") "Paris" = false := by decide
example : isAnswerMatch none "Paris" = false := by decide
example : isAnswerMatch (some "") "" = false := by decide
example : isAnswerMatch (some " ") "" = true := by decide

/-- Is the question auto-graded (`type === 'multiple-choice' || type === 'ox'`)?
This test appears verbatim at `Quiz.tsx` lines 221, 254, 310-311 and 423. -/
def isMcOrOx (q : QuizQuestion) : Bool :=
  match q.questionType with
  | QuestionType.multipleChoice => true
  | QuestionType.ox => true
  | QuestionType.shortAnswer => false

/-- The React component state of `Quiz` (`Quiz.tsx` lines 96-105), plus the
immutable `questions` prop.  `showResults = true` is the terminal
`Completed` state: the component then renders `null`, so no further
user event can reach any handler. -/
structure SessionState where
  questions : List QuizQuestion
  currentQuestionIndex : Nat
  userAnswers : List (Option String)
  checkedStates : List Bool
  selfAssessedCorrectness : List (Option Bool)
  tempShortAnswer : String
  showResults : Bool
deriving DecidableEq, Repr

/-- Initial component state (`useState` initializers, `Quiz.tsx` 97-105). -/
def initialState (qs : List QuizQuestion) : SessionState :=
  { questions := qs
    currentQuestionIndex := 0
    userAnswers := List.replicate qs.length none
    checkedStates := List.replicate qs.length false
    selfAssessedCorrectness := List.replicate qs.length none
    tempShortAnswer := ""
    showResults := false }

/-- The `useEffect` at `Quiz.tsx` lines 126-135: whenever
`currentQuestionIndex`, `userAnswers` or `checkedStates` change,
`tempShortAnswer` is re-synced from the saved answer (`savedAnswer || ''`,
so both `null` and `''` give `''`) for non-mc/ox questions, and reset to
`''` for mc/ox questions. -/
def syncDraft (s : SessionState) : SessionState :=
  match s.questions.get? s.currentQuestionIndex with
  | none => s
  | some q =>
    if isMcOrOx q then { s with tempShortAnswer := "" }
    else
      match s.userAnswers.getD s.currentQuestionIndex none with
      | none => { s with tempShortAnswer := "" }
      | some a => { s with tempShortAnswer := a }

/-- The scoring report delivered through the `onSubmit` callback
(`Quiz.tsx` lines 15-21 and 268).  `scorePercentage` is modelled as an
exact rational. -/
structure ScoringReport where
  scorePercentage : ℚ
  correctCount : Nat
  totalQuestions : Nat
  userAnswers : List (Option String)
  correctness : List Bool
deriving DecidableEq, Repr

/-- `calculatedCorrectness` from `handleNext` (`Quiz.tsx` lines 252-262):
`questions.map((question, index) => ...)`, auto-grading mc/ox questions
via `isAnswerMatch` and reading `selfAssessedCorrectness[index] === true`
otherwise. -/
def calculatedCorrectness (qs : List QuizQuestion) (ua : List (Option String))
    (sa : List (Option Bool)) : List Bool :=
  qs.enum.map (fun p =>
    if isMcOrOx p.2 then isAnswerMatch (ua.getD p.1 none) p.2.answer
    else decide (sa.getD p.1 none = some true))

/-- The report assembled in the `else` branch of `handleNext`
(`Quiz.tsx` lines 251-268). -/
def computeReport (s : SessionState) : ScoringReport :=
  { scorePercentage :=
      (((calculatedCorrectness s.questions s.userAnswers
          s.selfAssessedCorrectness).filter (fun c => c)).length : ℚ) /
        (s.questions.length : ℚ) * 100
    correctCount :=
      ((calculatedCorrectness s.questions s.userAnswers
          s.selfAssessedCorrectness).filter (fun c => c)).length
    totalQuestions := s.questions.length
    userAnswers := s.userAnswers
    correctness :=
      calculatedCorrectness s.questions s.userAnswers s.selfAssessedCorrectness }

/-- `hasAnswer` (`Quiz.tsx` line 426): mc/ox requires a recorded answer,
short-answer requires a non-empty trimmed draft. -/
def hasAnswer (s : SessionState) (q : QuizQuestion) : Bool :=
  if isMcOrOx q then decide (s.userAnswers.getD s.currentQuestionIndex none ≠ none)
  else decide (jsTrim s.tempShortAnswer ≠ "")

/-- `isNextButtonDisabled` (`Quiz.tsx` line 430): a checked short-answer
question blocks Next until self-assessed. -/
def isNextButtonDisabled (s : SessionState) (q : QuizQuestion) : Bool :=
  s.checkedStates.getD s.currentQuestionIndex false && !(isMcOrOx q) &&
    decide (s.selfAssessedCorrectness.getD s.currentQuestionIndex none = none)

/-- The user events the rendered component can deliver to the handlers.
Each acts on the current question, exactly as the rendered controls do. -/
inductive QuizEvent where
  | selectOption (value : String)
  | setShortAnswerDraft (text : String)
  | checkAnswer
  | selfAssess (isCorrect : Bool)
  | goPrev
  | goNext
deriving DecidableEq, Repr

/-- One user event processed by the component.  Besides the handler
bodies (`Quiz.tsx` lines 206-270) this includes the conditions under
which the corresponding control is rendered and enabled — the only way
each handler can fire (`Quiz.tsx` lines 338-341, 375-383, 403-415,
422-430, 574-595) — and the draft re-sync effect (lines 126-135), which
runs exactly when an index/answers/checked state update was issued.
Returns the next state and the report passed to `onSubmit`, if any. -/
def applyEvent (s : SessionState) (e : QuizEvent) : SessionState × Option ScoringReport :=
  if s.showResults then (s, none)
  else
    match s.questions.get? s.currentQuestionIndex with
    | none => (s, none)
    | some q =>
      match e with
      | QuizEvent.selectOption v =>
          -- handleAnswerSelect, lines 206-211
          if s.checkedStates.getD s.currentQuestionIndex false then (s, none)
          else
            (syncDraft { s with
              userAnswers := s.userAnswers.set s.currentQuestionIndex (some v) }, none)
      | QuizEvent.setShortAnswerDraft t =>
          -- handleShortAnswerChange, lines 213-216
          if s.checkedStates.getD s.currentQuestionIndex false then (s, none)
          else ({ s with tempShortAnswer := t }, none)
      | QuizEvent.checkAnswer =>
          -- the check button renders only while unchecked (line 585) and is
          -- disabled without an answer (lines 427, 590); body: lines 218-233
          if s.checkedStates.getD s.currentQuestionIndex false then (s, none)
          else if hasAnswer s q then
            (syncDraft
              { s with
                userAnswers :=
                  if isMcOrOx q then s.userAnswers
                  else s.userAnswers.set s.currentQuestionIndex (some s.tempShortAnswer)
                checkedStates := s.checkedStates.set s.currentQuestionIndex true },
             none)
          else (s, none)
      | QuizEvent.selfAssess b =>
          -- the assessment buttons render only in the short-answer branch,
          -- after check, while unassessed (lines 384, 403-409); body: 235-239
          if isMcOrOx q then (s, none)
          else if s.checkedStates.getD s.currentQuestionIndex false then
            if s.selfAssessedCorrectness.getD s.currentQuestionIndex none = none then
              ({ s with
                 selfAssessedCorrectness :=
                   s.selfAssessedCorrectness.set s.currentQuestionIndex (some b) }, none)
            else (s, none)
          else (s, none)
      | QuizEvent.goPrev =>
          -- handlePrev, lines 241-245
          if 0 < s.currentQuestionIndex then
            (syncDraft { s with currentQuestionIndex := s.currentQuestionIndex - 1 }, none)
          else (s, none)
      | QuizEvent.goNext =>
          -- the Next button renders only when checked (line 585) and is
          -- disabled by isNextButtonDisabled (lines 430, 586); body: 247-270
          if s.checkedStates.getD s.currentQuestionIndex false then
            if isNextButtonDisabled s q then (s, none)
            else if s.currentQuestionIndex < s.questions.length - 1 then
              (syncDraft { s with currentQuestionIndex := s.currentQuestionIndex + 1 }, none)
            else ({ s with showResults := true }, some (computeReport s))
          else (s, none)

/-- The state part of `applyEvent`. -/
def step (s : SessionState) (e : QuizEvent) : SessionState :=
  (applyEvent s e).1

/-- Run a list of user events from the initial state. -/
def runEvents (qs : List QuizQuestion) (es : List QuizEvent) : SessionState :=
  es.foldl step (initialState qs)

/-- The session states reachable from the initial state of a question
list by user events. -/
inductive Reachable (qs : List QuizQuestion) : SessionState → Prop where
  | init : Reachable qs (initialState qs)
  | step (s : SessionState) (e : QuizEvent) : Reachable qs s → Reachable qs (step s e)

/-- A concrete multiple-choice question used by the witnesses: the
spec's worked example question with `answer="B"`. -/
def exMc : QuizQuestion :=
  { question := "Pick B", questionType := QuestionType.multipleChoice,
    options := some ["A", "B"], answer := "B", explanation := "B it is" }

/-- A concrete ox question with `answer="O"`. -/
def exOx : QuizQuestion :=
  { question := "O or X", questionType := QuestionType.ox,
    options := some ["O", "X"], answer := "O", explanation := "O" }

/-- A concrete short-answer question. -/
def exSa : QuizQuestion :=
  { question := "Capital of France", questionType := QuestionType.shortAnswer,
    options := none, answer := "Paris", explanation := "geography" }

/-- The spec's worked example: one multiple-choice, one ox, one
short-answer question. -/
def exQuestions : List QuizQuestion := [exMc, exOx, exSa]

/-- The event run of the worked example: answer the multiple-choice
question correctly ("B"), the ox question wrongly ("X"), and self-assess
the short-answer question as correct. -/
def exEvents : List QuizEvent :=
  [QuizEvent.selectOption "B", QuizEvent.checkAnswer, QuizEvent.goNext,
   QuizEvent.selectOption "X", QuizEvent.checkAnswer, QuizEvent.goNext,
   QuizEvent.setShortAnswerDraft "Paris?", QuizEvent.checkAnswer,
   QuizEvent.selfAssess true]

/-- The session state of the worked example just before the terminal
`goNext`. -/
def exFinal : SessionState := runEvents exQuestions exEvents

/-- A one-question session whose short-answer question has been checked
but not yet self-assessed. -/
def gateQs : List QuizQuestion := [exSa]

/-- Reached from `gateQs` by typing a draft and checking it. -/
def gateState : SessionState :=
  runEvents gateQs [QuizEvent.setShortAnswerDraft "Lyon", QuizEvent.checkAnswer]

/-- A session state (not reachable through the UI guards) whose first,
short-answer question is checked but never self-assessed, with the last
question a satisfied multiple-choice one, used to exercise the scoring
fallback for absent self-assessments. -/
def c10State : SessionState :=
  { questions := [exSa, exMc]
    currentQuestionIndex := 1
    userAnswers := [some "Lyon", some "B"]
    checkedStates := [true, true]
    selfAssessedCorrectness := [none, none]
    tempShortAnswer := ""
    showResults := false }

/-- Reading a list after `List.set`: the written value when the slot
exists, the old reading otherwise. -/
theorem getD_set {α : Type _} (l : List α) (i j : Nat) (a d : α) :
    (l.set i a).getD j d = if j = i ∧ i < l.length then a else l.getD j d := by
  by_cases hij : j = i
  · subst hij
    by_cases hlen : j < l.length
    · have hj : l[j]? = some l[j] := List.getElem?_eq_getElem hlen
      rw [List.getD_eq_getElem?_getD, List.getElem?_set_self', hj]
      simp [hlen]
    · rw [List.set_eq_of_length_le (Nat.le_of_not_lt hlen)]
      simp [hlen]
  · rw [List.getD_eq_getElem?_getD, List.getElem?_set_ne (Ne.symm hij),
      ← List.getD_eq_getElem?_getD]
    simp [hij]

/-- `syncDraft` only rewrites the draft field. -/
theorem syncDraft_eq (s : SessionState) :
    ∃ t, syncDraft s = { s with tempShortAnswer := t } := by
  unfold syncDraft
  rcases s.questions.get? s.currentQuestionIndex with _ | q
  · exact ⟨s.tempShortAnswer, rfl⟩
  · by_cases h : isMcOrOx q
    · simp only [h, if_true]
      exact ⟨"", rfl⟩
    · simp only [h, if_false, Bool.false_eq_true]
      rcases s.userAnswers.getD s.currentQuestionIndex none with _ | a
      · exact ⟨"", rfl⟩
      · exact ⟨a, rfl⟩

theorem syncDraft_questions (s : SessionState) : (syncDraft s).questions = s.questions := by
  obtain ⟨t, ht⟩ := syncDraft_eq s
  rw [ht]

theorem syncDraft_index (s : SessionState) :
    (syncDraft s).currentQuestionIndex = s.currentQuestionIndex := by
  obtain ⟨t, ht⟩ := syncDraft_eq s
  rw [ht]

theorem syncDraft_userAnswers (s : SessionState) :
    (syncDraft s).userAnswers = s.userAnswers := by
  obtain ⟨t, ht⟩ := syncDraft_eq s
  rw [ht]

theorem syncDraft_checkedStates (s : SessionState) :
    (syncDraft s).checkedStates = s.checkedStates := by
  obtain ⟨t, ht⟩ := syncDraft_eq s
  rw [ht]

theorem syncDraft_selfAssessed (s : SessionState) :
    (syncDraft s).selfAssessedCorrectness = s.selfAssessedCorrectness := by
  obtain ⟨t, ht⟩ := syncDraft_eq s
  rw [ht]

theorem syncDraft_showResults (s : SessionState) :
    (syncDraft s).showResults = s.showResults := by
  obtain ⟨t, ht⟩ := syncDraft_eq s
  rw [ht]

/-- Folding events preserves reachability. -/
theorem reachable_foldl (qs : List QuizQuestion) (es : List QuizEvent) (s : SessionState)
    (h : Reachable qs s) : Reachable qs (es.foldl step s) := by
  induction es generalizing s with
  | nil => exact h
  | cons e es ih => exact ih _ (Reachable.step s e h)

/-- Every run of events from the initial state is reachable. -/
theorem reachable_runEvents (qs : List QuizQuestion) (es : List QuizEvent) :
    Reachable qs (runEvents qs es) :=
  reachable_foldl qs es _ Reachable.init

/-- C6: once `checkedStates[i]` is true, no event ever resets it: the only
write to `checkedStates` is `List.set _ true` inside `checkAnswer`. -/
theorem checkedStates_monotone (s : SessionState) (e : QuizEvent) (i : Nat)
    (h : s.checkedStates.getD i false = true) :
    (step s e).checkedStates.getD i false = true := by
  unfold step applyEvent
  repeat' split
  all_goals try exact h
  all_goals dsimp only
  all_goals rw [syncDraft_checkedStates]
  all_goals dsimp only
  all_goals try exact h
  all_goals rw [getD_set]
  all_goals split
  all_goals try rfl
  all_goals exact h

/-- `setShortAnswerDraft` writes only the draft field, never `userAnswers`. -/
theorem setDraft_userAnswers (s : SessionState) (t : String) :
    (step s (QuizEvent.setShortAnswerDraft t)).userAnswers = s.userAnswers := by
  unfold step applyEvent
  dsimp only
  repeat' split
  all_goals rfl

/-- Once `checkedStates[i]` holds, no event rewrites `userAnswers[i]`:
`handleAnswerSelect` and `handleCheckAnswer` return early / are not
rendered for a checked question, and both write only at the current index. -/
theorem userAnswers_frozen_step (s : SessionState) (e : QuizEvent) (i : Nat)
    (h : s.checkedStates.getD i false = true) :
    (step s e).userAnswers.getD i none = s.userAnswers.getD i none := by
  unfold step applyEvent
  repeat' split
  all_goals try rfl
  all_goals dsimp only
  all_goals rw [syncDraft_userAnswers]
  all_goals dsimp only
  all_goals rw [getD_set]
  all_goals split
  all_goals try rfl
  all_goals simp_all

/-- The replicate-`none` initial slots all read `none`. -/
theorem getD_replicate_none {α : Type _} (n i : Nat) :
    (List.replicate n (none : Option α)).getD i none = none := by
  rw [List.getD_eq_getElem?_getD, List.getElem?_replicate]
  split <;> rfl

/-- No event changes the question list. -/
theorem step_questions (s : SessionState) (e : QuizEvent) :
    (step s e).questions = s.questions := by
  unfold step applyEvent
  repeat' split
  all_goals try rfl
  all_goals dsimp only
  all_goals rw [syncDraft_questions]

/-- In every reachable state the question list is the one the session was
constructed with. -/
theorem reachable_questions (qs : List QuizQuestion) (s : SessionState)
    (hr : Reachable qs s) : s.questions = qs := by
  induction hr with
  | init => rfl
  | step s' e hr ih => rw [step_questions]; exact ih

/-- A `selfAssess` event never writes a slot whose question is
multiple-choice/ox: the assessment buttons render only on the
short-answer branch. -/
theorem selfAssessed_mcOx_step (s : SessionState) (e : QuizEvent) (i : Nat) (q : QuizQuestion)
    (hq : s.questions.get? i = some q) (hmc : isMcOrOx q = true)
    (hsa : s.selfAssessedCorrectness.getD i none = none) :
    (step s e).selfAssessedCorrectness.getD i none = none := by
  unfold step applyEvent
  repeat' split
  all_goals try exact hsa
  all_goals dsimp only
  all_goals try (rw [syncDraft_selfAssessed]; exact hsa)
  all_goals rw [getD_set]
  all_goals split
  all_goals try exact hsa
  all_goals simp_all

/-- Any event keeps the cursor inside the question list. -/
theorem index_bound_step (s : SessionState) (e : QuizEvent)
    (h : s.currentQuestionIndex < s.questions.length) :
    (step s e).currentQuestionIndex < (step s e).questions.length := by
  rw [step_questions]
  unfold step applyEvent
  repeat' split
  all_goals try exact h
  all_goals dsimp only
  all_goals rw [syncDraft_index]
  all_goals dsimp only
  all_goals try exact h
  all_goals omega

/-- In every reachable state of a non-empty question list, the cursor is a
valid index. -/
theorem reachable_index_lt (qs : List QuizQuestion) (s : SessionState)
    (hr : Reachable qs s) (hne : qs ≠ []) : s.currentQuestionIndex < qs.length := by
  induction hr with
  | init =>
      cases qs with
      | nil => exact absurd rfl hne
      | cons a l => simp [initialState]
  | step s' e hr ih =>
      have hq := reachable_questions qs s' hr
      have h1 : s'.currentQuestionIndex < s'.questions.length := by rw [hq]; exact ih
      have h2 := index_bound_step s' e h1
      rw [step_questions, hq] at h2
      exact h2

/-- Any event moves the cursor by at most one. -/
theorem index_delta_step (s : SessionState) (e : QuizEvent) :
    (step s e).currentQuestionIndex = s.currentQuestionIndex ∨
    (step s e).currentQuestionIndex = s.currentQuestionIndex + 1 ∨
    (step s e).currentQuestionIndex + 1 = s.currentQuestionIndex := by
  unfold step applyEvent
  repeat' split
  all_goals try (left; rfl)
  all_goals dsimp only
  all_goals rw [syncDraft_index]
  all_goals dsimp only
  all_goals omega

/-- `goPrev` at index 0 is a no-op (`handlePrev` guards on `index > 0`). -/
theorem goPrev_at_zero (s : SessionState) (h : s.currentQuestionIndex = 0) :
    step s QuizEvent.goPrev = s := by
  unfold step applyEvent
  dsimp only
  repeat' split
  all_goals try rfl
  all_goals omega

/-- `goPrev` above index 0 decrements the cursor. -/
theorem goPrev_decrement (s : SessionState) (q : QuizQuestion)
    (hres : s.showResults = false)
    (hq : s.questions.get? s.currentQuestionIndex = some q)
    (h : 0 < s.currentQuestionIndex) :
    (step s QuizEvent.goPrev).currentQuestionIndex = s.currentQuestionIndex - 1 := by
  unfold step applyEvent
  dsimp only
  repeat' split
  all_goals try simp_all
  all_goals rw [syncDraft_index]

/-- Enabled `goNext` below the last index increments the cursor. -/
theorem goNext_increment (s : SessionState) (q : QuizQuestion)
    (hres : s.showResults = false)
    (hq : s.questions.get? s.currentQuestionIndex = some q)
    (hch : s.checkedStates.getD s.currentQuestionIndex false = true)
    (hd : isNextButtonDisabled s q = false)
    (hlt : s.currentQuestionIndex < s.questions.length - 1) :
    (step s QuizEvent.goNext).currentQuestionIndex = s.currentQuestionIndex + 1 := by
  unfold step applyEvent
  dsimp only
  repeat' split
  all_goals try simp_all
  all_goals rw [syncDraft_index]

/-- Enabled `goNext` at the last index completes the session and emits the
report, exactly once. -/
theorem goNext_terminal (s : SessionState) (q : QuizQuestion)
    (hres : s.showResults = false)
    (hq : s.questions.get? s.currentQuestionIndex = some q)
    (hch : s.checkedStates.getD s.currentQuestionIndex false = true)
    (hd : isNextButtonDisabled s q = false)
    (hlast : ¬ s.currentQuestionIndex < s.questions.length - 1) :
    applyEvent s QuizEvent.goNext =
      ({ s with showResults := true }, some (computeReport s)) := by
  unfold applyEvent
  dsimp only
  repeat' split
  all_goals try rfl
  all_goals simp_all

/-- A completed session absorbs every event: the component renders `null`
after `setShowResults(true)`, so no control exists any more. -/
theorem completed_absorbing (s : SessionState) (e : QuizEvent)
    (h : s.showResults = true) : applyEvent s e = (s, none) := by
  unfold applyEvent
  rw [if_pos h]

/-- The only report `goNext` can emit is `computeReport` of the pre-state. -/
theorem report_of_goNext (s : SessionState) (r : ScoringReport)
    (h : (applyEvent s QuizEvent.goNext).2 = some r) : r = computeReport s := by
  unfold applyEvent at h
  dsimp only at h
  repeat' split at h
  all_goals simp_all

/-- The correctness list is index-aligned with the question list. -/
theorem calculatedCorrectness_get? (qs : List QuizQuestion) (ua : List (Option String))
    (sa : List (Option Bool)) (i : Nat) :
    (calculatedCorrectness qs ua sa).get? i =
      (qs.get? i).map (fun q =>
        if isMcOrOx q then isAnswerMatch (ua.getD i none) q.answer
        else decide (sa.getD i none = some true)) := by
  unfold calculatedCorrectness
  rw [List.get?_eq_getElem?, List.getElem?_map, List.getElem?_enum, List.get?_eq_getElem?]
  cases h : qs[i]? <;> rfl

/-- The correctness list has one entry per question. -/
theorem calculatedCorrectness_length (qs : List QuizQuestion) (ua : List (Option String))
    (sa : List (Option Bool)) :
    (calculatedCorrectness qs ua sa).length = qs.length := by
  unfold calculatedCorrectness
  rw [List.length_map, List.enum_length]

/-- C1: the Scoring Report emitted by `goNext` at the last index grades
each question `i` by `matches(userAnswers[i], answer)` when the question
is multiple-choice/ox and by `selfAssessedCorrectness[i] === true`
otherwise, sets `correctCount` to the number of true entries, and sets
`scorePercentage = correctCount / questionCount * 100`. -/
theorem scoring_report_correct (s : SessionState) (r : ScoringReport)
    (hne : s.questions ≠ [])
    (hlast : s.currentQuestionIndex = s.questions.length - 1)
    (hrep : (applyEvent s QuizEvent.goNext).2 = some r) :
    (∀ i qi, s.questions.get? i = some qi →
      r.correctness.get? i =
        some (if isMcOrOx qi then isAnswerMatch (s.userAnswers.getD i none) qi.answer
              else decide (s.selfAssessedCorrectness.getD i none = some true))) ∧
    r.correctCount = (r.correctness.filter (fun c => c)).length ∧
    r.totalQuestions = s.questions.length ∧
    r.scorePercentage = (r.correctCount : ℚ) / (s.questions.length : ℚ) * 100 ∧
    r.userAnswers = s.userAnswers := by
  have h := report_of_goNext s r hrep
  subst h
  refine ⟨?_, rfl, rfl, rfl, rfl⟩
  intro i qi hqi
  show (calculatedCorrectness s.questions s.userAnswers s.selfAssessedCorrectness).get? i = _
  rw [calculatedCorrectness_get?, hqi]
  rfl

/-- Witness for C1: the spec's worked example (multiple-choice answered
"B" correctly, ox answered "X" wrongly, short-answer self-assessed true)
yields correctness [true, false, true], correctCount 2, score 200/3. -/
theorem scoring_report_correct_witness :
    (applyEvent exFinal QuizEvent.goNext).2 = some (computeReport exFinal) ∧
    (computeReport exFinal).correctness = [true, false, true] ∧
    (computeReport exFinal).correctCount = 2 ∧
    (computeReport exFinal).totalQuestions = 3 ∧
    (computeReport exFinal).scorePercentage = 200 / 3 ∧
    (computeReport exFinal).correctness.get? 1 =
      some (if isMcOrOx exOx then isAnswerMatch (exFinal.userAnswers.getD 1 none) exOx.answer
            else decide (exFinal.selfAssessedCorrectness.getD 1 none = some true)) := by
  have h := scoring_report_correct exFinal (computeReport exFinal) (by decide) (by decide) rfl
  refine ⟨rfl, by decide, by decide, by decide, ?_, h.1 1 exOx (by decide)⟩
  have hc : ((calculatedCorrectness exFinal.questions exFinal.userAnswers
      exFinal.selfAssessedCorrectness).filter (fun c => c)).length = 2 := by decide
  have hl : exFinal.questions.length = 3 := by decide
  show (((calculatedCorrectness exFinal.questions exFinal.userAnswers
      exFinal.selfAssessedCorrectness).filter (fun c => c)).length : ℚ) /
      (exFinal.questions.length : ℚ) * 100 = 200 / 3
  rw [hc, hl]
  norm_num

/-- C10: every entry of the emitted correctness list is a strict boolean,
one per question; a non-mc/ox question whose self-assessment is absent at
report time is scored false rather than absent, so `correctCount` and
`scorePercentage` are always well-defined. -/
theorem report_correctness_total (s : SessionState) (r : ScoringReport)
    (hrep : (applyEvent s QuizEvent.goNext).2 = some r) :
    r.correctness.length = s.questions.length ∧
    r.correctCount = (r.correctness.filter (fun c => c)).length ∧
    r.scorePercentage = (r.correctCount : ℚ) / (s.questions.length : ℚ) * 100 ∧
    (∀ i qi, s.questions.get? i = some qi → isMcOrOx qi = false →
      s.selfAssessedCorrectness.getD i none = none →
      r.correctness.get? i = some false) := by
  have h := report_of_goNext s r hrep
  subst h
  refine ⟨calculatedCorrectness_length _ _ _, rfl, rfl, ?_⟩
  intro i qi hqi hmc hsa
  show (calculatedCorrectness s.questions s.userAnswers s.selfAssessedCorrectness).get? i = _
  rw [calculatedCorrectness_get?, hqi]
  have hsa2 : s.selfAssessedCorrectness.getD i none = (none : Option Bool) := hsa
  rw [List.getD_eq_getElem?_getD] at hsa2
  simp [hmc, hsa2]

/-- Witness for C10: in `c10State` the first question is short-answer,
checked, never self-assessed; the report scores it false. -/
theorem report_correctness_total_witness :
    (applyEvent c10State QuizEvent.goNext).2 = some (computeReport c10State) ∧
    (computeReport c10State).correctness = [false, true] ∧
    (computeReport c10State).correctness.get? 0 = some false := by
  have h := report_correctness_total c10State (computeReport c10State) rfl
  exact ⟨rfl, by decide, h.2.2.2 0 exSa (by decide) (by decide) (by decide)⟩

/-- C3: in a reachable state whose current question is the last one, of
short-answer type, checked, and not yet self-assessed, `goNext` produces
no Scoring Report and leaves the session uncompleted (the Next button is
disabled by `isNextButtonDisabled`). -/
theorem completion_gating (qs : List QuizQuestion) (s : SessionState) (q : QuizQuestion)
    (hrch : Reachable qs s)
    (hlast : s.currentQuestionIndex = qs.length - 1)
    (hq : s.questions.get? s.currentQuestionIndex = some q)
    (hty : q.questionType = QuestionType.shortAnswer)
    (hch : s.checkedStates.getD s.currentQuestionIndex false = true)
    (hsa : s.selfAssessedCorrectness.getD s.currentQuestionIndex none = none) :
    applyEvent s QuizEvent.goNext = (s, none) := by
  have hmc : isMcOrOx q = false := by
    unfold isMcOrOx
    rw [hty]
  have hd : isNextButtonDisabled s q = true := by
    unfold isNextButtonDisabled
    rw [hch, hmc, hsa]
    rfl
  unfold applyEvent
  dsimp only
  repeat' split
  all_goals try rfl
  all_goals simp_all

/-- Witness for C3: a one-question session with a checked, unassessed
short-answer question; `goNext` is a no-op. -/
theorem completion_gating_witness :
    gateState.currentQuestionIndex = gateQs.length - 1 ∧
    gateState.checkedStates.getD gateState.currentQuestionIndex false = true ∧
    gateState.selfAssessedCorrectness.getD gateState.currentQuestionIndex none = none ∧
    applyEvent gateState QuizEvent.goNext = (gateState, none) :=
  ⟨by decide, by decide, by decide,
   completion_gating gateQs gateState exSa
     (reachable_runEvents gateQs
        [QuizEvent.setShortAnswerDraft "Lyon", QuizEvent.checkAnswer])
     (by decide) (by decide) (by decide) (by decide) (by decide)⟩

/-- C4: invoking `checkAnswer` when no answer is present (absent choice
for multiple-choice/ox, empty trimmed draft for short-answer) is a no-op:
the confirm button is disabled, so `checkedStates[i]` stays as it was and
`userAnswers[i]` is unchanged. -/
theorem checkAnswer_no_answer_noop (s : SessionState) (q : QuizQuestion)
    (hq : s.questions.get? s.currentQuestionIndex = some q)
    (hno : hasAnswer s q = false) :
    step s QuizEvent.checkAnswer = s := by
  unfold step applyEvent
  dsimp only
  repeat' split
  all_goals try rfl
  all_goals simp_all

/-- Witness for C4: in the fresh worked-example session no answer is
selected, and `checkAnswer` changes nothing. -/
theorem checkAnswer_no_answer_noop_witness :
    hasAnswer (initialState exQuestions) exMc = false ∧
    step (initialState exQuestions) QuizEvent.checkAnswer = initialState exQuestions :=
  ⟨by decide,
   checkAnswer_no_answer_noop (initialState exQuestions) exMc (by decide) (by decide)⟩

/-- C5: once `checkedStates[i]` is true, `userAnswers[i]` never changes:
`selectOption` is a no-op on a checked question, and a draft update never
touches `userAnswers` at all. -/
theorem userAnswers_frozen_after_check (s : SessionState) (i : Nat)
    (h : s.checkedStates.getD i false = true) :
    (∀ e, (step s e).userAnswers.getD i none = s.userAnswers.getD i none) ∧
    (∀ t, (step s (QuizEvent.setShortAnswerDraft t)).userAnswers = s.userAnswers) :=
  ⟨fun e => userAnswers_frozen_step s e i h, fun t => setDraft_userAnswers s t⟩

/-- Witness for C5 at the checked short-answer session. -/
theorem userAnswers_frozen_after_check_witness :
    gateState.checkedStates.getD 0 false = true ∧
    (step gateState (QuizEvent.selectOption "other")).userAnswers.getD 0 none
      = gateState.userAnswers.getD 0 none ∧
    (step gateState (QuizEvent.setShortAnswerDraft "zzz")).userAnswers
      = gateState.userAnswers :=
  ⟨by decide,
   (userAnswers_frozen_after_check gateState 0 (by decide)).1 (QuizEvent.selectOption "other"),
   (userAnswers_frozen_after_check gateState 0 (by decide)).2 "zzz"⟩

/-- Witness for C6: question 0 of `gateState` is checked and remains
checked after a further event. -/
theorem checkedStates_monotone_witness :
    gateState.checkedStates.getD 0 false = true ∧
    (step gateState QuizEvent.goPrev).checkedStates.getD 0 false = true :=
  ⟨by decide, checkedStates_monotone gateState QuizEvent.goPrev 0 (by decide)⟩

/-- C7: in every reachable state of a non-empty session the cursor is in
[0, count-1]; every event moves it by at most one; `goPrev` at 0 is a
no-op and otherwise decrements; enabled `goNext` increments below the
last index and, at the last index, completes the session and emits the
report; a completed session absorbs all further events, so the transition
to Completed happens exactly once. -/
theorem navigation_bounds (qs : List QuizQuestion) (s : SessionState)
    (hrch : Reachable qs s) (hne : qs ≠ []) :
    s.currentQuestionIndex < qs.length ∧
    (∀ e, (step s e).currentQuestionIndex = s.currentQuestionIndex ∨
          (step s e).currentQuestionIndex = s.currentQuestionIndex + 1 ∨
          (step s e).currentQuestionIndex + 1 = s.currentQuestionIndex) ∧
    (s.currentQuestionIndex = 0 → step s QuizEvent.goPrev = s) ∧
    (∀ q, s.showResults = false →
      s.questions.get? s.currentQuestionIndex = some q →
      0 < s.currentQuestionIndex →
      (step s QuizEvent.goPrev).currentQuestionIndex = s.currentQuestionIndex - 1) ∧
    (∀ q, s.showResults = false →
      s.questions.get? s.currentQuestionIndex = some q →
      s.checkedStates.getD s.currentQuestionIndex false = true →
      isNextButtonDisabled s q = false →
      (s.currentQuestionIndex < qs.length - 1 →
        (step s QuizEvent.goNext).currentQuestionIndex = s.currentQuestionIndex + 1) ∧
      (s.currentQuestionIndex = qs.length - 1 →
        (applyEvent s QuizEvent.goNext).1.showResults = true ∧
        (applyEvent s QuizEvent.goNext).2 = some (computeReport s))) ∧
    (∀ (s2 : SessionState) (e : QuizEvent), s2.showResults = true →
      applyEvent s2 e = (s2, none)) := by
  have hqs := reachable_questions qs s hrch
  refine ⟨reachable_index_lt qs s hrch hne, fun e => index_delta_step s e,
    fun h0 => goPrev_at_zero s h0, ?_, ?_, fun s2 e h => completed_absorbing s2 e h⟩
  · intro q hres hq hpos
    exact goPrev_decrement s q hres hq hpos
  · intro q hres hq hch hd
    constructor
    · intro hlt
      exact goNext_increment s q hres hq hch hd (by rw [hqs]; exact hlt)
    · intro hlast
      have hterm := goNext_terminal s q hres hq hch hd (by rw [hqs]; omega)
      rw [hterm]
      exact ⟨rfl, rfl⟩

/-- Witness for C7: in the worked example's final state the cursor is in
bounds and the terminal `goNext` completes and reports. -/
theorem navigation_bounds_witness :
    exFinal.currentQuestionIndex < exQuestions.length ∧
    (applyEvent exFinal QuizEvent.goNext).1.showResults = true ∧
    (applyEvent exFinal QuizEvent.goNext).2 = some (computeReport exFinal) := by
  have h := navigation_bounds exQuestions exFinal
    (reachable_runEvents exQuestions exEvents) (by decide)
  have h5 := h.2.2.2.2.1 exSa (by decide) (by decide) (by decide) (by decide)
  exact ⟨h.1, (h5.2 (by decide)).1, (h5.2 (by decide)).2⟩

/-- C8: in every reachable state, `selfAssessedCorrectness[i]` is absent
for every multiple-choice/ox question `i`: the self-assessment buttons
render only on the short-answer branch, so `selfAssess` never fires for
an auto-graded question. -/
theorem selfAssessed_absent_for_mcox (qs : List QuizQuestion) (s : SessionState)
    (hrch : Reachable qs s) (i : Nat) (q : QuizQuestion)
    (hq : qs.get? i = some q) (hmc : isMcOrOx q = true) :
    s.selfAssessedCorrectness.getD i none = none := by
  induction hrch with
  | init => exact getD_replicate_none qs.length i
  | step s' e hr ih =>
      refine selfAssessed_mcOx_step s' e i q ?_ hmc ih
      rw [reachable_questions qs s' hr]
      exact hq

/-- Witness for C8 at the worked example's final state: the
multiple-choice question 0 has no self-assessment. -/
theorem selfAssessed_absent_for_mcox_witness :
    exQuestions.get? 0 = some exMc ∧ isMcOrOx exMc = true ∧
    exFinal.selfAssessedCorrectness.getD 0 none = none :=
  ⟨by decide, by decide,
   selfAssessed_absent_for_mcox exQuestions exFinal
     (reachable_runEvents exQuestions exEvents) 0 exMc (by decide) (by decide)⟩

/-- C2 counterexample: the claimed characterization of `matches` fails at
the present candidate "" and canonical answer "": they are exactly equal,
yet `isAnswerMatch` returns false because the falsy guard rejects the
empty string before the equality test. -/
theorem matches_iff_refuted :
    ¬ (isAnswerMatch (some "") "" = true ↔
        (("" : String) = "" ∨ normalizeAnswer "" = normalizeAnswer "")) := by
  decide

/-- C2 amended: `matches(candidate, answer)` is true iff the candidate is
present and non-empty and either equals the answer exactly or the two are
equal after trimming and stripping one trailing dot/comma; the spec's
concrete examples hold as stated. -/
theorem matches_characterization :
    (∀ (c : Option String) (a : String),
      isAnswerMatch c a = true ↔
        ∃ v, c = some v ∧ v ≠ "" ∧ (v = a ∨ normalizeAnswer v = normalizeAnswer a)) ∧
    isAnswerMatch (some "Paris.") "Paris" = true ∧
    isAnswerMatch (some " Paris ") "Paris" = true ∧
    isAnswerMatch (some "paris") "Paris" = false ∧
    isAnswerMatch none "Paris" = false := by
  refine ⟨?_, by decide, by decide, by decide, by decide⟩
  intro c a
  cases c with
  | none => simp [isAnswerMatch]
  | some v =>
      unfold isAnswerMatch
      by_cases hv : v = ""
      · subst hv
        simp
      · by_cases hva : v = a
        · subst hva
          simp [hv]
        · simp [hv, hva]

/-- C9: the empty-string candidate short-circuits exactly like an absent
candidate — false even against the empty canonical answer, where the two
are exactly equal — while a whitespace-only candidate passes the guard
and can still match via normalization. -/
theorem matches_empty_candidate :
    (∀ a : String, isAnswerMatch (some "") a = false ∧
      isAnswerMatch (some "") a = isAnswerMatch none a) ∧
    isAnswerMatch (some "") "" = false ∧
    isAnswerMatch (some " ") " " = true ∧
    isAnswerMatch (some " ") "" = true := by
  exact ⟨fun a => ⟨rfl, rfl⟩, by decide, by decide, by decide⟩
